import Mathlib

/-!
Shallow embedding of the gobreaker circuit-breaker package (gobreaker.go).

Modelling conventions:
- `time.Time` is a `Nat` of nanoseconds, with `0` standing for Go's zero
  `time.Time` (the sentinel produced by `var zero time.Time`); `e.IsZero()`
  becomes `e = 0` and `e.Before(now)` becomes `e < now`.
- `time.Duration` fields of `Settings` are `Int` (they may be `<= 0` in Go);
  the durations stored in the breaker after default-resolution are `Nat`.
- `uint32` counters and the `uint64` generation are `Nat` reduced mod `2^32`
  (resp. `2^64`) at each increment, mirroring Go wrap-around.
- Go `error` values are `Option GoError` (`none` is Go's `nil`).
- the `OnStateChange` callback is modelled by its observable behaviour: each
  mutating operation also returns the list of invocations `(name, from, to)`
  the breaker performs; whether a callback was configured is the Boolean
  field `onStateChangeSet` (Go's `cb.onStateChange != nil`).
- methods that read `time.Now()` take the current instant as an explicit
  argument; `Execute`, which reads the clock twice (once in `beforeRequest`
  and once in `afterRequest`), takes two instants.
-/

set_option autoImplicit false

/-- Wrap-around modulus of Go `uint32`. -/
def U32 : Nat := 4294967296

/-- Wrap-around modulus of Go `uint64`. -/
def U64 : Nat := 18446744073709551616

/-- The `State` enumeration of the breaker (closed / half-open / open). -/
inductive State where
  | StateClosed : State
  | StateHalfOpen : State
  | StateOpen : State
deriving DecidableEq

/-- Go `error` values relevant to the breaker: the two sentinel rejection
errors and arbitrary user errors returned by wrapped calls. -/
inductive GoError where
  | ErrOpenState : GoError
  | ErrTooManyRequests : GoError
  | userError : Nat → GoError
deriving DecidableEq

/-- `Counts` holds the numbers of requests and their successes/failures. -/
structure Counts where
  Requests : Nat
  TotalSuccesses : Nat
  TotalFailures : Nat
  ConsecutiveSuccesses : Nat
  ConsecutiveFailures : Nat
deriving DecidableEq

/-- `Counts.onRequest`: `c.Requests++`. -/
def Counts.onRequest (c : Counts) : Counts :=
  { c with Requests := (c.Requests + 1) % U32 }

/-- `Counts.onSuccess`: increments total and consecutive successes, zeroes
consecutive failures. -/
def Counts.onSuccess (c : Counts) : Counts :=
  { c with
    TotalSuccesses := (c.TotalSuccesses + 1) % U32
    ConsecutiveSuccesses := (c.ConsecutiveSuccesses + 1) % U32
    ConsecutiveFailures := 0 }

/-- `Counts.onFailure`: increments total and consecutive failures, zeroes
consecutive successes. -/
def Counts.onFailure (c : Counts) : Counts :=
  { c with
    TotalFailures := (c.TotalFailures + 1) % U32
    ConsecutiveFailures := (c.ConsecutiveFailures + 1) % U32
    ConsecutiveSuccesses := 0 }

/-- `Counts.clear`: zeroes all five fields. -/
def Counts.clear (_ : Counts) : Counts :=
  { Requests := 0
    TotalSuccesses := 0
    TotalFailures := 0
    ConsecutiveSuccesses := 0
    ConsecutiveFailures := 0 }

/-- `Settings` configures a breaker; duration fields may be non-positive and
the three callbacks may be absent (`nil`).  `OnStateChange` is modelled by
whether it is set. -/
structure Settings where
  Name : String
  MaxRequests : Nat
  Interval : Int
  Timeout : Int
  ReadyToTrip : Option (Counts → Bool)
  OnStateChange : Bool
  IsSuccessful : Option (Option GoError → Bool)

/-- The `CircuitBreaker` state machine (mutable fields of the Go struct plus
the default-resolved configuration). -/
structure CircuitBreaker where
  name : String
  maxRequests : Nat
  interval : Nat
  timeout : Nat
  readyToTrip : Counts → Bool
  isSuccessful : Option GoError → Bool
  onStateChangeSet : Bool
  state : State
  generation : Nat
  counts : Counts
  expiry : Nat

/-- One invocation of the `OnStateChange` observer callback. -/
structure StateChangeEvent where
  name : String
  fromState : State
  toState : State
deriving DecidableEq

/-- `const defaultInterval = time.Duration(0) * time.Second`. -/
def defaultInterval : Nat := 0

/-- One second in nanoseconds (`time.Second`). -/
def second : Nat := 1000000000

/-- `const defaultTimeout = time.Duration(60) * time.Second`. -/
def defaultTimeout : Nat := 60 * second

/-- `defaultReadyToTrip` returns true when the number of consecutive
failures is more than 5. -/
def defaultReadyToTrip (counts : Counts) : Bool :=
  decide (5 < counts.ConsecutiveFailures)

/-- `defaultIsSuccessful` returns true exactly for a `nil` error. -/
def defaultIsSuccessful (err : Option GoError) : Bool :=
  err.isNone

/-- `toNewGeneration`: increments the generation id, clears the counter and
recomputes the expiry for the current state. -/
def toNewGeneration (cb : CircuitBreaker) (now : Nat) : CircuitBreaker :=
  let cb2 := { cb with
    generation := (cb.generation + 1) % U64
    counts := cb.counts.clear }
  match cb2.state with
  | State.StateClosed =>
      if cb2.interval = 0 then { cb2 with expiry := 0 }
      else { cb2 with expiry := now + cb2.interval }
  | State.StateOpen => { cb2 with expiry := now + cb2.timeout }
  | State.StateHalfOpen => { cb2 with expiry := 0 }

/-- `setState`: a no-op when the target state is already current; otherwise
records the previous state, installs the new one, starts a new generation
and invokes the observer callback (if configured) with
`(name, previous, new)`. -/
def setState (cb : CircuitBreaker) (state : State) (now : Nat) :
    CircuitBreaker × List StateChangeEvent :=
  if cb.state = state then (cb, [])
  else
    let prev := cb.state
    let cb2 := toNewGeneration { cb with state := state } now
    (cb2, if cb2.onStateChangeSet then [⟨cb2.name, prev, state⟩] else [])

/-- `currentState`: resolves the lazy time-driven transitions (interval
rollover while closed, open-to-half-open at expiry) and returns the
resulting state and generation together with the updated breaker. -/
def currentState (cb : CircuitBreaker) (now : Nat) :
    (State × Nat) × CircuitBreaker × List StateChangeEvent :=
  match cb.state with
  | State.StateClosed =>
      if cb.expiry ≠ 0 ∧ cb.expiry < now then
        let cb2 := toNewGeneration cb now
        ((cb2.state, cb2.generation), cb2, [])
      else ((cb.state, cb.generation), cb, [])
  | State.StateOpen =>
      if cb.expiry < now then
        let r := setState cb State.StateHalfOpen now
        ((r.1.state, r.1.generation), r.1, r.2)
      else ((cb.state, cb.generation), cb, [])
  | State.StateHalfOpen => ((cb.state, cb.generation), cb, [])

/-- `NewCircuitBreaker`: builds a breaker from `Settings`, applying the
documented defaults, then starts the first generation. -/
def NewCircuitBreaker (st : Settings) (now : Nat) : CircuitBreaker :=
  let cb : CircuitBreaker := {
    name := st.Name
    onStateChangeSet := st.OnStateChange
    maxRequests := if st.MaxRequests = 0 then 1 else st.MaxRequests
    interval := if st.Interval ≤ 0 then defaultInterval else st.Interval.toNat
    timeout := if st.Timeout ≤ 0 then defaultTimeout else st.Timeout.toNat
    readyToTrip := match st.ReadyToTrip with
      | none => defaultReadyToTrip
      | some f => f
    isSuccessful := match st.IsSuccessful with
      | none => defaultIsSuccessful
      | some f => f
    state := State.StateClosed
    generation := 0
    counts := ⟨0, 0, 0, 0, 0⟩
    expiry := 0 }
  toNewGeneration cb now

/-- `beforeRequest`: resolves the current state, rejects when open or when
the half-open probe quota is used up, and otherwise counts the request and
admits it, returning the generation observed at admission. -/
def beforeRequest (cb : CircuitBreaker) (now : Nat) :
    (Nat × Option GoError) × CircuitBreaker × List StateChangeEvent :=
  let r := currentState cb now
  let state := r.1.1
  let generation := r.1.2
  let cb2 := r.2.1
  let evs := r.2.2
  if state = State.StateOpen then
    ((generation, some GoError.ErrOpenState), cb2, evs)
  else if state = State.StateHalfOpen ∧ cb2.maxRequests ≤ cb2.counts.Requests then
    ((generation, some GoError.ErrTooManyRequests), cb2, evs)
  else
    ((generation, none), { cb2 with counts := cb2.counts.onRequest }, evs)

/-- `cb.onSuccess`: records a success in the given (resolved) state; while
half-open, enough consecutive successes close the breaker. -/
def CircuitBreaker.onSuccess (cb : CircuitBreaker) (state : State) (now : Nat) :
    CircuitBreaker × List StateChangeEvent :=
  match state with
  | State.StateClosed => ({ cb with counts := cb.counts.onSuccess }, [])
  | State.StateHalfOpen =>
      let cb2 := { cb with counts := cb.counts.onSuccess }
      if cb2.maxRequests ≤ cb2.counts.ConsecutiveSuccesses then
        setState cb2 State.StateClosed now
      else (cb2, [])
  | State.StateOpen => (cb, [])

/-- `cb.onFailure`: records a failure in the given (resolved) state; while
closed, the trip predicate decides whether to open; while half-open, a
single failure opens the breaker. -/
def CircuitBreaker.onFailure (cb : CircuitBreaker) (state : State) (now : Nat) :
    CircuitBreaker × List StateChangeEvent :=
  match state with
  | State.StateClosed =>
      let cb2 := { cb with counts := cb.counts.onFailure }
      if cb2.readyToTrip cb2.counts then setState cb2 State.StateOpen now
      else (cb2, [])
  | State.StateHalfOpen => setState cb State.StateOpen now
  | State.StateOpen => (cb, [])

/-- `afterRequest`: resolves the current state; a stale generation token is
discarded, otherwise the outcome is recorded via `onSuccess`/`onFailure`. -/
def afterRequest (cb : CircuitBreaker) (before : Nat) (success : Bool) (now : Nat) :
    CircuitBreaker × List StateChangeEvent :=
  let r := currentState cb now
  let state := r.1.1
  let generation := r.1.2
  let cb2 := r.2.1
  let evs := r.2.2
  if generation ≠ before then (cb2, evs)
  else if success then
    let r2 := cb2.onSuccess state now
    (r2.1, evs ++ r2.2)
  else
    let r2 := cb2.onFailure state now
    (r2.1, evs ++ r2.2)

/-- Behaviour of the function passed to `Execute`: it either returns a
`(result, error)` pair or terminates abnormally with a panic value. -/
inductive ReqResult where
  | ok : Nat → Option GoError → ReqResult
  | panicked : Nat → ReqResult

/-- What `Execute` does for the caller: an instant rejection, a normal
return of the wrapped call's own pair, or re-raising the original panic. -/
inductive ExecOutcome where
  | rejected : GoError → ExecOutcome
  | returned : Nat → Option GoError → ExecOutcome
  | panicked : Nat → ExecOutcome
deriving DecidableEq

/-- `Execute`: admission via `beforeRequest` at `t1`; if admitted, the call
runs and its outcome is recorded via `afterRequest` at `t2` with the
generation captured at admission.  A panic is recorded as a failure and
re-raised unchanged. -/
def Execute (cb : CircuitBreaker) (req : ReqResult) (t1 t2 : Nat) :
    ExecOutcome × CircuitBreaker × List StateChangeEvent :=
  let b := beforeRequest cb t1
  let generation := b.1.1
  let cb1 := b.2.1
  match b.1.2 with
  | some e => (ExecOutcome.rejected e, cb1, b.2.2)
  | none =>
      match req with
      | ReqResult.panicked p =>
          let a := afterRequest cb1 generation false t2
          (ExecOutcome.panicked p, a.1, b.2.2 ++ a.2)
      | ReqResult.ok res err =>
          let a := afterRequest cb1 generation (cb.isSuccessful err) t2
          (ExecOutcome.returned res err, a.1, b.2.2 ++ a.2)

/-- `TwoStepCircuitBreaker` wraps a `CircuitBreaker`, separating admission
from outcome reporting. -/
structure TwoStepCircuitBreaker where
  cb : CircuitBreaker

/-- `NewTwoStepCircuitBreaker`. -/
def NewTwoStepCircuitBreaker (st : Settings) (now : Nat) : TwoStepCircuitBreaker :=
  ⟨NewCircuitBreaker st now⟩

/-- `Allow`: performs the before-request phase; on admission the returned
completion handle is the captured generation (invoking Go's `done(success)`
at instant `t` is `afterRequest cb generation success t`). -/
def TwoStepCircuitBreaker.Allow (tscb : TwoStepCircuitBreaker) (now : Nat) :
    (Option Nat × Option GoError) × CircuitBreaker × List StateChangeEvent :=
  let b := beforeRequest tscb.cb now
  match b.1.2 with
  | some e => ((none, some e), b.2.1, b.2.2)
  | none => ((some b.1.1, none), b.2.1, b.2.2)

/-! ### Shared concrete values and helper lemmas -/

/-- Zero-value `Settings` (every default applies), as in `var st Settings`. -/
def settings0 : Settings := ⟨"cb", 0, 0, 0, none, false, none⟩

/-- A breaker built from the zero-value settings at instant 0. -/
def cbDefault : CircuitBreaker := NewCircuitBreaker settings0 0

/-- A wrapped call that returns a non-nil error (classified as failure by
the default classifier). -/
def failingReq : ReqResult := ReqResult.ok 0 (some (GoError.userError 0))

/-- `iterFail n`: the breaker after `n` calls of `Execute` with a failing
request, all at instant 1, starting from `cbDefault`. -/
def iterFail : Nat → CircuitBreaker
  | 0 => cbDefault
  | n + 1 => (Execute (iterFail n) failingReq 1 1).2.1

/-- An open breaker that is not yet due to probe at instant 1. -/
def cbOpenFresh : CircuitBreaker := { cbDefault with state := State.StateOpen, expiry := 100 }

/-- A half-open breaker whose single probe slot is already charged. -/
def cbHalfSat : CircuitBreaker :=
  { cbDefault with state := State.StateHalfOpen, counts := ⟨1, 0, 0, 0, 0⟩ }

/-- Breakers reachable from construction through any sequence of public
operations (each of which internally performs the clears and transitions). -/
inductive Reachable : CircuitBreaker → Prop where
  | new (st : Settings) (now : Nat) : Reachable (NewCircuitBreaker st now)
  | before (cb : CircuitBreaker) (now : Nat) :
      Reachable cb → Reachable (beforeRequest cb now).2.1
  | after (cb : CircuitBreaker) (b : Nat) (s : Bool) (now : Nat) :
      Reachable cb → Reachable (afterRequest cb b s now).1
  | current (cb : CircuitBreaker) (now : Nat) :
      Reachable cb → Reachable (currentState cb now).2.1
  | exec (cb : CircuitBreaker) (req : ReqResult) (t1 t2 : Nat) :
      Reachable cb → Reachable (Execute cb req t1 t2).2.1

/-- The mutual-exclusion property of the two consecutive counters. -/
def CountsOK (c : Counts) : Prop :=
  c.ConsecutiveSuccesses = 0 ∨ c.ConsecutiveFailures = 0

lemma currentState_state (cb : CircuitBreaker) (now : Nat) :
    (currentState cb now).1.1 = (currentState cb now).2.1.state := by
  obtain ⟨nm, mr, iv, tmo, rt, su, oc, st, gen, cts, ex⟩ := cb
  cases st <;> simp only [currentState] <;> split <;> rfl

lemma currentState_gen (cb : CircuitBreaker) (now : Nat) :
    (currentState cb now).1.2 = (currentState cb now).2.1.generation := by
  obtain ⟨nm, mr, iv, tmo, rt, su, oc, st, gen, cts, ex⟩ := cb
  cases st <;> simp only [currentState] <;> split <;> rfl

lemma toNewGeneration_state (cb : CircuitBreaker) (now : Nat) :
    (toNewGeneration cb now).state = cb.state := by
  obtain ⟨nm, mr, iv, tmo, rt, su, oc, st, gen, cts, ex⟩ := cb
  cases st <;> simp only [toNewGeneration] <;> split <;> rfl

lemma toNewGeneration_counts (cb : CircuitBreaker) (now : Nat) :
    (toNewGeneration cb now).counts = ⟨0, 0, 0, 0, 0⟩ := by
  obtain ⟨nm, mr, iv, tmo, rt, su, oc, st, gen, cts, ex⟩ := cb
  cases st <;> simp only [toNewGeneration, Counts.clear] <;> split <;> rfl

lemma toNewGeneration_generation (cb : CircuitBreaker) (now : Nat) :
    (toNewGeneration cb now).generation = (cb.generation + 1) % U64 := by
  obtain ⟨nm, mr, iv, tmo, rt, su, oc, st, gen, cts, ex⟩ := cb
  cases st <;> simp only [toNewGeneration] <;> split <;> rfl

/-! ### C2 — stale-outcome protection -/

/-- C2: if the generation resolved at outcome-reporting time differs from
the generation `before` captured at admission, `afterRequest` returns the
breaker exactly as the lazy-transition resolution left it (state, counts,
generation and expiry all unchanged) and records nothing. -/
theorem afterRequest_stale (cb : CircuitBreaker) (before : Nat) (success : Bool)
    (now : Nat) (h : (currentState cb now).1.2 ≠ before) :
    afterRequest cb before success now =
      ((currentState cb now).2.1, (currentState cb now).2.2) := by
  simp only [afterRequest]
  rw [if_pos h]

/-- Witness for C2 at a fresh default breaker (generation 1) and the stale
token 0: the outcome report is a no-op. -/
theorem afterRequest_stale_witness :
    (currentState cbDefault 1).1.2 ≠ 0 ∧
    afterRequest cbDefault 0 true 1 =
      ((currentState cbDefault 1).2.1, (currentState cbDefault 1).2.2) :=
  ⟨by decide, afterRequest_stale cbDefault 0 true 1 (by decide)⟩

/-! ### C5 — lazy time-driven transition -/

/-- C5: while `Open` with the expiry passed, resolving state transitions the
breaker to `HalfOpen` (both the returned state and the stored state); while
`HalfOpen`, resolution never changes anything — no time-based exit exists. -/
theorem lazy_transition (cb : CircuitBreaker) (now : Nat) :
    (cb.state = State.StateOpen → cb.expiry < now →
      (currentState cb now).1.1 = State.StateHalfOpen ∧
      (currentState cb now).2.1.state = State.StateHalfOpen) ∧
    (cb.state = State.StateHalfOpen →
      currentState cb now = ((State.StateHalfOpen, cb.generation), cb, [])) := by
  constructor
  · intro hs hlt
    simp only [currentState, hs, if_pos hlt, setState]
    have hne : State.StateOpen ≠ State.StateHalfOpen := by decide
    rw [if_neg hne]
    constructor <;> simp [toNewGeneration_state]
  · intro hs
    simp [currentState, hs]

/-- Witness for C5: an open breaker whose expiry (5) has passed at instant
10 resolves to `HalfOpen`; a half-open breaker resolves to itself at any
instant. -/
theorem lazy_transition_witness :
    ({ cbDefault with state := State.StateOpen, expiry := 5 }.state = State.StateOpen ∧
     { cbDefault with state := State.StateOpen, expiry := 5 }.expiry < 10 ∧
     (currentState { cbDefault with state := State.StateOpen, expiry := 5 } 10).2.1.state =
       State.StateHalfOpen) ∧
    ({ cbDefault with state := State.StateHalfOpen }.state = State.StateHalfOpen ∧
     currentState { cbDefault with state := State.StateHalfOpen } 10 =
       ((State.StateHalfOpen, { cbDefault with state := State.StateHalfOpen }.generation),
        { cbDefault with state := State.StateHalfOpen }, [])) :=
  ⟨⟨rfl, by decide,
    ((lazy_transition { cbDefault with state := State.StateOpen, expiry := 5 } 10).1
      rfl (by decide)).2⟩,
   ⟨rfl,
    (lazy_transition { cbDefault with state := State.StateHalfOpen } 10).2 rfl⟩⟩

/-! ### C1 — admission control -/

/-- C1: after the lazy-transition resolution, an open breaker rejects with
the open-state error leaving the resolved breaker untouched; a half-open
breaker whose request count has reached `maxRequests` rejects with the
too-many-requests error leaving the resolved breaker untouched; otherwise
the request counter is incremented and the call is admitted with the
resolved generation id. -/
theorem beforeRequest_admission (cb : CircuitBreaker) (now : Nat) :
    ((currentState cb now).2.1.state = State.StateOpen →
      beforeRequest cb now =
        (((currentState cb now).2.1.generation, some GoError.ErrOpenState),
         (currentState cb now).2.1, (currentState cb now).2.2)) ∧
    ((currentState cb now).2.1.state = State.StateHalfOpen →
      (currentState cb now).2.1.maxRequests ≤ (currentState cb now).2.1.counts.Requests →
      beforeRequest cb now =
        (((currentState cb now).2.1.generation, some GoError.ErrTooManyRequests),
         (currentState cb now).2.1, (currentState cb now).2.2)) ∧
    ((currentState cb now).2.1.state ≠ State.StateOpen →
      ¬((currentState cb now).2.1.state = State.StateHalfOpen ∧
        (currentState cb now).2.1.maxRequests ≤ (currentState cb now).2.1.counts.Requests) →
      beforeRequest cb now =
        (((currentState cb now).2.1.generation, none),
         { (currentState cb now).2.1 with
             counts := (currentState cb now).2.1.counts.onRequest },
         (currentState cb now).2.2)) := by
  refine ⟨?_, ?_, ?_⟩
  · intro h
    simp only [beforeRequest, currentState_state, currentState_gen]
    rw [if_pos h]
  · intro h hq
    simp only [beforeRequest, currentState_state, currentState_gen]
    have hne : (currentState cb now).2.1.state ≠ State.StateOpen := by
      rw [h]; decide
    rw [if_neg hne, if_pos ⟨h, hq⟩]
  · intro h1 h2
    simp only [beforeRequest, currentState_state, currentState_gen]
    rw [if_neg h1, if_neg h2]

/-- Witness for C1, exercising all three branches: an open breaker rejects,
a saturated half-open breaker rejects, and the fresh closed default breaker
admits, incrementing `Requests` to 1 and returning generation 1. -/
theorem beforeRequest_admission_witness :
    ((currentState cbOpenFresh 1).2.1.state = State.StateOpen ∧
     (beforeRequest cbOpenFresh 1).1.2 = some GoError.ErrOpenState) ∧
    ((currentState cbHalfSat 1).2.1.state = State.StateHalfOpen ∧
     (currentState cbHalfSat 1).2.1.maxRequests ≤ (currentState cbHalfSat 1).2.1.counts.Requests ∧
     (beforeRequest cbHalfSat 1).1.2 = some GoError.ErrTooManyRequests) ∧
    ((currentState cbDefault 1).2.1.state ≠ State.StateOpen ∧
     beforeRequest cbDefault 1 =
       ((1, none), { cbDefault with counts := ⟨1, 0, 0, 0, 0⟩ }, []) ∧
     (beforeRequest cbDefault 1).2.1.counts.Requests = 1) := by
  refine ⟨⟨by decide, ?_⟩, ⟨by decide, by decide, ?_⟩, by decide, ?_, by decide⟩
  · rw [(beforeRequest_admission cbOpenFresh 1).1 (by decide)]
  · rw [(beforeRequest_admission cbHalfSat 1).2.1 (by decide) (by decide)]
  · rw [(beforeRequest_admission cbDefault 1).2.2 (by decide) (by decide)]
    rfl

/-! ### C9 — setState contract -/

/-- C9: setting the state that is already current changes nothing and emits
no observer invocation; on an actual change the generation is incremented,
the counts cleared, the expiry recomputed for the entering state, and the
observer (when configured) is invoked exactly once with
`(name, previous state, new state)`. -/
theorem setState_contract (cb : CircuitBreaker) (s : State) (now : Nat) :
    (cb.state = s → setState cb s now = (cb, [])) ∧
    (cb.state ≠ s →
      (setState cb s now).1.state = s ∧
      (setState cb s now).1.generation = (cb.generation + 1) % U64 ∧
      (setState cb s now).1.counts = ⟨0, 0, 0, 0, 0⟩ ∧
      (setState cb s now).1.expiry =
        (match s with
         | State.StateClosed => if cb.interval = 0 then 0 else now + cb.interval
         | State.StateOpen => now + cb.timeout
         | State.StateHalfOpen => 0) ∧
      (setState cb s now).2 =
        (if cb.onStateChangeSet then [⟨cb.name, cb.state, s⟩] else [])) := by
  constructor
  · intro h
    simp [setState, h]
  · intro h
    simp only [setState, if_neg h]
    obtain ⟨nm, mr, iv, tmo, rt, su, oc, st, gen, cts, ex⟩ := cb
    cases s <;>
      simp only [toNewGeneration, Counts.clear] <;>
      first
        | (split_ifs <;> simp_all)
        | simp_all

/-- Witness for C9: re-setting `Closed` on the fresh default breaker is a
no-op, and setting `Open` on it bumps the generation to 2, clears counts,
sets the expiry to `now + timeout` and (observer unset) emits nothing. -/
theorem setState_contract_witness :
    (cbDefault.state = State.StateClosed ∧
     setState cbDefault State.StateClosed 7 = (cbDefault, [])) ∧
    (cbDefault.state ≠ State.StateOpen ∧
     (setState cbDefault State.StateOpen 7).1.state = State.StateOpen ∧
     (setState cbDefault State.StateOpen 7).1.generation = 2 ∧
     (setState cbDefault State.StateOpen 7).1.counts = ⟨0, 0, 0, 0, 0⟩ ∧
     (setState cbDefault State.StateOpen 7).1.expiry = 7 + cbDefault.timeout ∧
     (setState cbDefault State.StateOpen 7).2 = []) := by
  have h1 := (setState_contract cbDefault State.StateClosed 7).1 rfl
  have h2 := (setState_contract cbDefault State.StateOpen 7).2 (by decide)
  refine ⟨⟨rfl, h1⟩, by decide, h2.1, ?_, h2.2.2.1, ?_, ?_⟩
  · rw [h2.2.1]; decide
  · rw [h2.2.2.2.1]
  · rw [h2.2.2.2.2]; decide

/-! ### C4 — half-open outcome protocol -/

/-- C4: while `HalfOpen` (same generation), a success increments the success
counters and closes the breaker (clearing all counts) exactly when the
consecutive successes have reached `maxRequests`; a failure opens the
breaker immediately, whatever the counters hold. -/
theorem halfOpen_outcomes (cb : CircuitBreaker) (now : Nat)
    (h : cb.state = State.StateHalfOpen) :
    ((cb.maxRequests ≤ cb.counts.onSuccess.ConsecutiveSuccesses →
        (cb.onSuccess State.StateHalfOpen now).1.state = State.StateClosed ∧
        (cb.onSuccess State.StateHalfOpen now).1.counts = ⟨0, 0, 0, 0, 0⟩) ∧
     (cb.counts.onSuccess.ConsecutiveSuccesses < cb.maxRequests →
        (cb.onSuccess State.StateHalfOpen now).1 =
          { cb with counts := cb.counts.onSuccess })) ∧
    (cb.onFailure State.StateHalfOpen now).1.state = State.StateOpen := by
  refine ⟨⟨?_, ?_⟩, ?_⟩
  · intro hge
    simp only [CircuitBreaker.onSuccess, if_pos hge, setState]
    have hne : ¬({ cb with counts := cb.counts.onSuccess }.state = State.StateClosed) := by
      simp [h]
    rw [if_neg hne]
    exact ⟨by simp [toNewGeneration_state], by simp [toNewGeneration_counts]⟩
  · intro hlt
    simp only [CircuitBreaker.onSuccess]
    rw [if_neg (by omega)]
  · simp only [CircuitBreaker.onFailure, setState]
    have hne : ¬(cb.state = State.StateOpen) := by simp [h]
    rw [if_neg hne]
    simp [toNewGeneration_state]

/-- Witness for C4 at a half-open default breaker (`maxRequests = 1`) with
one charged probe: a success closes the breaker with counts cleared, and a
failure at the same breaker opens it. -/
theorem halfOpen_outcomes_witness :
    cbHalfSat.state = State.StateHalfOpen ∧
    cbHalfSat.maxRequests ≤ cbHalfSat.counts.onSuccess.ConsecutiveSuccesses ∧
    (cbHalfSat.onSuccess State.StateHalfOpen 1).1.state = State.StateClosed ∧
    (cbHalfSat.onSuccess State.StateHalfOpen 1).1.counts = ⟨0, 0, 0, 0, 0⟩ ∧
    (cbHalfSat.onFailure State.StateHalfOpen 1).1.state = State.StateOpen := by
  have h := halfOpen_outcomes cbHalfSat 1 rfl
  have hge : cbHalfSat.maxRequests ≤ cbHalfSat.counts.onSuccess.ConsecutiveSuccesses := by
    decide
  exact ⟨rfl, hge, (h.1.1 hge).1, (h.1.1 hge).2, h.2⟩

/-! ### C3 — closed-state failure protocol -/

/-- While frozen open (expiry far in the future), a failing call at instant
1 is rejected and changes nothing. -/
lemma iterFail_frozen : ∀ m, iterFail (6 + m) = iterFail 6
  | 0 => rfl
  | m + 1 => by
      show (Execute (iterFail (6 + m)) failingReq 1 1).2.1 = iterFail 6
      rw [iterFail_frozen m]
      exact rfl

/-- C3: recording a failure while `Closed` first updates the failure
counters, then consults the trip predicate on the post-update snapshot, and
moves to `Open` exactly when it answers true (otherwise only the counters
change); consequently, iterating failing calls on a fresh default breaker
(trip predicate: consecutive failures > 5) leaves it `Open` iff the number
of calls exceeds 5. -/
theorem closed_failure_protocol :
    (∀ (cb : CircuitBreaker) (now : Nat), cb.state = State.StateClosed →
      (((cb.onFailure State.StateClosed now).1.state = State.StateOpen) ↔
        cb.readyToTrip cb.counts.onFailure = true) ∧
      (cb.readyToTrip cb.counts.onFailure = false →
        (cb.onFailure State.StateClosed now).1 =
          { cb with counts := cb.counts.onFailure })) ∧
    (∀ n : Nat, (iterFail n).state = State.StateOpen ↔ 5 < n) := by
  constructor
  · intro cb now h
    constructor
    · simp only [CircuitBreaker.onFailure]
      rcases hrt : cb.readyToTrip cb.counts.onFailure with _ | _
      · rw [if_neg (by simp [hrt])]
        simp [h, hrt]
      · rw [if_pos (by simp [hrt]), setState]
        have hne : ¬({ cb with counts := cb.counts.onFailure }.state = State.StateOpen) := by
          simp [h]
        rw [if_neg hne]
        simp [toNewGeneration_state, hrt]
    · intro hrt
      simp only [CircuitBreaker.onFailure]
      rw [if_neg (by simp [hrt])]
  · intro n
    rcases le_or_lt n 5 with h | h
    · have hc : (iterFail n).state = State.StateClosed := by
        interval_cases n <;> decide
      rw [hc]
      constructor
      · intro h'
        exact absurd h' (by decide)
      · intro h'
        omega
    · have h6 : iterFail n = iterFail 6 := by
        obtain ⟨m, rfl⟩ : ∃ m, n = 6 + m := ⟨n - 6, by omega⟩
        exact iterFail_frozen m
      rw [h6]
      have ho : (iterFail 6).state = State.StateOpen := by decide
      rw [ho]
      simp [h]

/-- Witness for C3: the fresh default breaker is closed, its trip predicate
answers false on the first failure so only the counters change, and after 6
failing calls (but not 5) the iterated breaker is open. -/
theorem closed_failure_protocol_witness :
    cbDefault.state = State.StateClosed ∧
    cbDefault.readyToTrip cbDefault.counts.onFailure = false ∧
    (cbDefault.onFailure State.StateClosed 1).1 =
      { cbDefault with counts := cbDefault.counts.onFailure } ∧
    ((iterFail 5).state = State.StateOpen ↔ 5 < 5) ∧
    ((iterFail 6).state = State.StateOpen ↔ 5 < 6) := by
  refine ⟨rfl, by decide, ?_, ?_, ?_⟩
  · exact (closed_failure_protocol.1 cbDefault 1 rfl).2 (by decide)
  · exact closed_failure_protocol.2 5
  · exact closed_failure_protocol.2 6

/-! ### C7 — abnormal-termination accounting -/

/-- C7: if the wrapped call panics after being admitted, `Execute` performs
the after-request phase with the generation captured at admission and the
failure verdict, and re-raises the original panic value unchanged. -/
theorem execute_panic_accounting (cb : CircuitBreaker) (p t1 t2 : Nat)
    (h : (beforeRequest cb t1).1.2 = none) :
    Execute cb (ReqResult.panicked p) t1 t2 =
      (ExecOutcome.panicked p,
       (afterRequest (beforeRequest cb t1).2.1 (beforeRequest cb t1).1.1 false t2).1,
       (beforeRequest cb t1).2.2 ++
         (afterRequest (beforeRequest cb t1).2.1 (beforeRequest cb t1).1.1 false t2).2) := by
  simp only [Execute, h]

/-- Witness for C7: the fresh default breaker admits at instant 1, the
panic value 42 is re-raised unchanged, and the failure was recorded (one
request, one total and consecutive failure). -/
theorem execute_panic_accounting_witness :
    (beforeRequest cbDefault 1).1.2 = none ∧
    Execute cbDefault (ReqResult.panicked 42) 1 1 =
      (ExecOutcome.panicked 42,
       (afterRequest (beforeRequest cbDefault 1).2.1 (beforeRequest cbDefault 1).1.1 false 1).1,
       (beforeRequest cbDefault 1).2.2 ++
         (afterRequest (beforeRequest cbDefault 1).2.1 (beforeRequest cbDefault 1).1.1 false 1).2) ∧
    (Execute cbDefault (ReqResult.panicked 42) 1 1).1 = ExecOutcome.panicked 42 ∧
    (Execute cbDefault (ReqResult.panicked 42) 1 1).2.1.counts = ⟨1, 0, 1, 0, 1⟩ :=
  ⟨by decide, execute_panic_accounting cbDefault 42 1 1 (by decide), by decide, by decide⟩

/-! ### C8 — construction round-trip and defaults -/

/-- C8: immediately after `NewCircuitBreaker` the breaker is closed with
all-zero counts; `MaxRequests = 0` becomes 1, `Timeout <= 0` becomes 60
seconds, `Interval <= 0` means no closed-state clearing ever becomes due, a
nil trip predicate defaults to "more than 5 consecutive failures", and a
nil classifier counts exactly the nil error as a success. -/
theorem new_breaker_defaults (st : Settings) (now : Nat) :
    (NewCircuitBreaker st now).state = State.StateClosed ∧
    (NewCircuitBreaker st now).counts = ⟨0, 0, 0, 0, 0⟩ ∧
    (NewCircuitBreaker st now).maxRequests =
      (if st.MaxRequests = 0 then 1 else st.MaxRequests) ∧
    (st.Timeout ≤ 0 → (NewCircuitBreaker st now).timeout = 60 * second) ∧
    (st.Interval ≤ 0 →
      (NewCircuitBreaker st now).interval = 0 ∧
      ∀ t, currentState (NewCircuitBreaker st now) t =
        ((State.StateClosed, (NewCircuitBreaker st now).generation),
         NewCircuitBreaker st now, [])) ∧
    (st.ReadyToTrip = none →
      ∀ c, (NewCircuitBreaker st now).readyToTrip c = true ↔ 5 < c.ConsecutiveFailures) ∧
    (st.IsSuccessful = none →
      ∀ e, (NewCircuitBreaker st now).isSuccessful e = true ↔ e = none) := by
  have hstate : (NewCircuitBreaker st now).state = State.StateClosed := by
    simp only [NewCircuitBreaker]
    rw [toNewGeneration_state]
  have hcounts : (NewCircuitBreaker st now).counts = ⟨0, 0, 0, 0, 0⟩ := by
    simp only [NewCircuitBreaker]
    rw [toNewGeneration_counts]
  refine ⟨hstate, hcounts, ?_, ?_, ?_, ?_, ?_⟩
  · simp only [NewCircuitBreaker, toNewGeneration]
    split <;> split_ifs <;> rfl
  · intro h
    simp only [NewCircuitBreaker, toNewGeneration]
    split <;> split_ifs <;> simp [if_pos h, defaultTimeout]
  · intro h
    have hint : (NewCircuitBreaker st now).interval = 0 := by
      simp only [NewCircuitBreaker, toNewGeneration]
      split <;> split_ifs <;> simp [if_pos h, defaultInterval]
    have hexp : (NewCircuitBreaker st now).expiry = 0 := by
      simp only [NewCircuitBreaker, toNewGeneration]
      have : (if st.Interval ≤ 0 then defaultInterval else st.Interval.toNat) = 0 := by
        rw [if_pos h]; rfl
      simp [this]
    refine ⟨hint, fun t => ?_⟩
    simp only [currentState, hstate, hexp]
    rw [if_neg (by simp), ← hstate]
  · intro h
    intro c
    simp only [NewCircuitBreaker, toNewGeneration, h]
    split <;> split_ifs <;> simp [defaultReadyToTrip]
  · intro h
    intro e
    simp only [NewCircuitBreaker, toNewGeneration, h]
    split <;> split_ifs <;> simp [defaultIsSuccessful, Option.isNone_iff_eq_none]

/-- Witness for C8 at the zero-value settings (every default applies) and
instant 0: closed, zero counts, `maxRequests = 1`, `timeout` 60 seconds,
no clearing due at instant 5, the default trip predicate fires at 6 but not
5 consecutive failures, and the default classifier accepts exactly nil. -/
theorem new_breaker_defaults_witness :
    cbDefault.state = State.StateClosed ∧
    cbDefault.counts = ⟨0, 0, 0, 0, 0⟩ ∧
    cbDefault.maxRequests = 1 ∧
    (settings0.Timeout ≤ 0 ∧ cbDefault.timeout = 60 * second) ∧
    (settings0.Interval ≤ 0 ∧ cbDefault.interval = 0 ∧
      currentState cbDefault 5 = ((State.StateClosed, cbDefault.generation), cbDefault, [])) ∧
    (settings0.ReadyToTrip = none ∧
      cbDefault.readyToTrip ⟨6, 0, 6, 0, 6⟩ = true ∧
      cbDefault.readyToTrip ⟨5, 0, 5, 0, 5⟩ = false) ∧
    (settings0.IsSuccessful = none ∧
      cbDefault.isSuccessful none = true ∧
      cbDefault.isSuccessful (some GoError.ErrOpenState) = false) := by
  have h := new_breaker_defaults settings0 0
  refine ⟨h.1, h.2.1, h.2.2.1, ⟨by decide, h.2.2.2.1 (by decide)⟩,
    ⟨by decide, (h.2.2.2.2.1 (by decide)).1, (h.2.2.2.2.1 (by decide)).2 5⟩,
    ⟨rfl, ?_, ?_⟩, ⟨rfl, ?_, ?_⟩⟩
  · exact ((h.2.2.2.2.2.1 rfl ⟨6, 0, 6, 0, 6⟩).2 (by decide))
  · have := (h.2.2.2.2.2.1 rfl ⟨5, 0, 5, 0, 5⟩)
    rcases hb : cbDefault.readyToTrip ⟨5, 0, 5, 0, 5⟩ with _ | _
    · rfl
    · exact absurd (this.1 hb) (by decide)
  · exact (h.2.2.2.2.2.2 rfl none).2 rfl
  · rcases hb : cbDefault.isSuccessful (some GoError.ErrOpenState) with _ | _
    · rfl
    · exact absurd ((h.2.2.2.2.2.2 rfl (some GoError.ErrOpenState)).1 hb) (by simp)

/-! ### C10 — the two-step completion handle is not idempotent -/

/-- A same-generation success report on a closed breaker with no clearing
due simply runs `Counts.onSuccess`. -/
lemma afterRequest_closed_success (cb : CircuitBreaker) (g t : Nat)
    (h1 : cb.state = State.StateClosed) (h2 : ¬(cb.expiry ≠ 0 ∧ cb.expiry < t))
    (h3 : cb.generation = g) :
    afterRequest cb g true t = ({ cb with counts := cb.counts.onSuccess }, []) := by
  simp only [afterRequest, currentState, h1, if_neg h2]
  rw [if_neg (by simp [h3])]
  simp [CircuitBreaker.onSuccess, h1]

/-- C10: invoking the completion handle of `Allow` twice with success, on a
closed breaker whose generation is still the one captured at admission,
records two success outcomes: the total and consecutive success counters
each grow by 2 while the request counter does not move; concretely, after
`Allow` plus a double `done(true)` on a fresh default two-step breaker the
counts are one request but two total and consecutive successes, so total
successes plus total failures exceed total requests in the generation. -/
theorem allow_done_twice (cb : CircuitBreaker) (g t : Nat)
    (h1 : cb.state = State.StateClosed) (h2 : ¬(cb.expiry ≠ 0 ∧ cb.expiry < t))
    (h3 : cb.generation = g) :
    (afterRequest (afterRequest cb g true t).1 g true t).1.counts.Requests =
      cb.counts.Requests ∧
    (afterRequest (afterRequest cb g true t).1 g true t).1.counts.TotalSuccesses =
      (cb.counts.TotalSuccesses + 2) % U32 ∧
    (afterRequest (afterRequest cb g true t).1 g true t).1.counts.ConsecutiveSuccesses =
      (cb.counts.ConsecutiveSuccesses + 2) % U32 ∧
    (afterRequest (afterRequest cb g true t).1 g true t).1.counts.ConsecutiveFailures = 0 := by
  rw [afterRequest_closed_success cb g t h1 h2 h3]
  rw [afterRequest_closed_success { cb with counts := cb.counts.onSuccess } g t h1 h2 h3]
  refine ⟨rfl, ?_, ?_, rfl⟩ <;>
    simp [Counts.onSuccess, U32, Nat.add_mod_right]

/-- Witness for C10: the fresh default two-step breaker admits at instant 1
with generation handle 1, and after invoking the handle twice with success
the counts are `⟨1, 2, 0, 2, 0⟩` — successes outnumber requests. -/
theorem allow_done_twice_witness :
    ((NewTwoStepCircuitBreaker settings0 0).Allow 1).1.1 = some 1 ∧
    (((NewTwoStepCircuitBreaker settings0 0).Allow 1).2.1.state = State.StateClosed ∧
     ¬(((NewTwoStepCircuitBreaker settings0 0).Allow 1).2.1.expiry ≠ 0 ∧
       ((NewTwoStepCircuitBreaker settings0 0).Allow 1).2.1.expiry < 1) ∧
     ((NewTwoStepCircuitBreaker settings0 0).Allow 1).2.1.generation = 1) ∧
    (afterRequest (afterRequest ((NewTwoStepCircuitBreaker settings0 0).Allow 1).2.1
        1 true 1).1 1 true 1).1.counts = ⟨1, 2, 0, 2, 0⟩ ∧
    (afterRequest (afterRequest ((NewTwoStepCircuitBreaker settings0 0).Allow 1).2.1
        1 true 1).1 1 true 1).1.counts.Requests <
      (afterRequest (afterRequest ((NewTwoStepCircuitBreaker settings0 0).Allow 1).2.1
        1 true 1).1 1 true 1).1.counts.TotalSuccesses +
      (afterRequest (afterRequest ((NewTwoStepCircuitBreaker settings0 0).Allow 1).2.1
        1 true 1).1 1 true 1).1.counts.TotalFailures := by
  have h := allow_done_twice (((NewTwoStepCircuitBreaker settings0 0).Allow 1).2.1) 1 1
    (by decide) (by decide) (by decide)
  refine ⟨by decide, ⟨by decide, by decide, by decide⟩, by decide, ?_⟩
  rw [h.1, h.2.1]
  decide

/-! ### C6 — counter mutual-exclusion invariant -/

lemma countsOK_onRequest (c : Counts) (h : CountsOK c) : CountsOK c.onRequest := h

lemma countsOK_onSuccess (c : Counts) : CountsOK c.onSuccess := Or.inr rfl

lemma countsOK_onFailure (c : Counts) : CountsOK c.onFailure := Or.inl rfl

lemma countsOK_toNewGeneration (cb : CircuitBreaker) (now : Nat) :
    CountsOK (toNewGeneration cb now).counts := by
  rw [toNewGeneration_counts]
  exact Or.inl rfl

lemma countsOK_setState (cb : CircuitBreaker) (s : State) (now : Nat)
    (h : CountsOK cb.counts) : CountsOK (setState cb s now).1.counts := by
  simp only [setState]
  split
  · exact h
  · exact countsOK_toNewGeneration _ _

lemma countsOK_currentState (cb : CircuitBreaker) (now : Nat)
    (h : CountsOK cb.counts) : CountsOK (currentState cb now).2.1.counts := by
  obtain ⟨nm, mr, iv, tmo, rt, su, oc, st, gen, cts, ex⟩ := cb
  cases st <;> simp only [currentState] <;> try split
  · exact countsOK_toNewGeneration _ _
  · exact h
  · exact h
  · exact countsOK_setState _ _ _ h
  · exact h

lemma countsOK_cb_onSuccess (cb : CircuitBreaker) (s : State) (now : Nat)
    (h : CountsOK cb.counts) : CountsOK (cb.onSuccess s now).1.counts := by
  cases s <;> simp only [CircuitBreaker.onSuccess]
  · exact countsOK_onSuccess _
  · split
    · exact countsOK_setState _ _ _ (countsOK_onSuccess _)
    · exact countsOK_onSuccess _
  · exact h

lemma countsOK_cb_onFailure (cb : CircuitBreaker) (s : State) (now : Nat)
    (h : CountsOK cb.counts) : CountsOK (cb.onFailure s now).1.counts := by
  cases s <;> simp only [CircuitBreaker.onFailure]
  · split
    · exact countsOK_setState _ _ _ (countsOK_onFailure _)
    · exact countsOK_onFailure _
  · exact countsOK_setState _ _ _ h
  · exact h

lemma countsOK_beforeRequest (cb : CircuitBreaker) (now : Nat)
    (h : CountsOK cb.counts) : CountsOK (beforeRequest cb now).2.1.counts := by
  simp only [beforeRequest]
  split
  · exact countsOK_currentState cb now h
  · split
    · exact countsOK_currentState cb now h
    · exact countsOK_onRequest _ (countsOK_currentState cb now h)

lemma countsOK_afterRequest (cb : CircuitBreaker) (b : Nat) (s : Bool) (now : Nat)
    (h : CountsOK cb.counts) : CountsOK (afterRequest cb b s now).1.counts := by
  simp only [afterRequest]
  split
  · exact countsOK_currentState cb now h
  · split
    · exact countsOK_cb_onSuccess _ _ _ (countsOK_currentState cb now h)
    · exact countsOK_cb_onFailure _ _ _ (countsOK_currentState cb now h)

lemma countsOK_execute (cb : CircuitBreaker) (req : ReqResult) (t1 t2 : Nat)
    (h : CountsOK cb.counts) : CountsOK (Execute cb req t1 t2).2.1.counts := by
  simp only [Execute]
  split
  · exact countsOK_beforeRequest cb t1 h
  · split
    · exact countsOK_afterRequest _ _ _ _ (countsOK_beforeRequest cb t1 h)
    · exact countsOK_afterRequest _ _ _ _ (countsOK_beforeRequest cb t1 h)

/-- C6: in every reachable breaker, a positive consecutive-success counter
forces the consecutive-failure counter to zero and vice versa. -/
theorem counts_mutual_exclusion (cb : CircuitBreaker) (h : Reachable cb) :
    (0 < cb.counts.ConsecutiveSuccesses → cb.counts.ConsecutiveFailures = 0) ∧
    (0 < cb.counts.ConsecutiveFailures → cb.counts.ConsecutiveSuccesses = 0) := by
  have hOK : CountsOK cb.counts := by
    induction h with
    | new st now =>
        simp only [NewCircuitBreaker]
        exact countsOK_toNewGeneration _ _
    | before cb now _ ih => exact countsOK_beforeRequest cb now ih
    | after cb b s now _ ih => exact countsOK_afterRequest cb b s now ih
    | current cb now _ ih => exact countsOK_currentState cb now ih
    | exec cb req t1 t2 _ ih => exact countsOK_execute cb req t1 t2 ih
  rcases hOK with h0 | h0 <;> constructor <;> intro hpos <;> omega

/-- Witness for C6: a breaker reached by one admitted request followed by a
success report satisfies the mutual-exclusion property (its counts are one
request and one consecutive success, zero consecutive failures). -/
theorem counts_mutual_exclusion_witness :
    Reachable (afterRequest (beforeRequest cbDefault 1).2.1 1 true 1).1 ∧
    ((0 < (afterRequest (beforeRequest cbDefault 1).2.1 1 true 1).1.counts.ConsecutiveSuccesses →
        (afterRequest (beforeRequest cbDefault 1).2.1 1 true 1).1.counts.ConsecutiveFailures = 0) ∧
     (0 < (afterRequest (beforeRequest cbDefault 1).2.1 1 true 1).1.counts.ConsecutiveFailures →
        (afterRequest (beforeRequest cbDefault 1).2.1 1 true 1).1.counts.ConsecutiveSuccesses = 0)) := by
  have hr : Reachable (afterRequest (beforeRequest cbDefault 1).2.1 1 true 1).1 :=
    Reachable.after _ 1 true 1 (Reachable.before _ 1 (Reachable.new settings0 0))
  exact ⟨hr, counts_mutual_exclusion _ hr⟩
